import Mathlib

/-!
Shallow embedding of the differential-privacy mechanism layer of the
Sherpa federated-learning framework (`shfl/differential_privacy/dp_mechanism.py`).

Five mechanism classes are embedded: RandomizedResponseCoins,
RandomizedResponseBinary, LaplaceMechanism, GaussianMechanism and
ExponentialMechanism.  Randomness is modelled by oracles passed to the
apply functions: a Bernoulli oracle receives the success probability the
source passes to `scipy.stats.bernoulli.rvs`, a Laplace oracle receives
the scale passed to `np.random.laplace`, a Gaussian oracle receives the
standard deviation passed to `np.random.normal`, and a choice oracle
receives the normalized probability vector passed to `np.random.choice`.
Each `apply` method is embedded as a function from the instance state to
a pair of the post-call instance state and the call result, so that frame
properties of the methods (which fields are reassigned) are visible.

The shared validation helpers (`_check_epsilon_delta`, `_check_binary_data`,
`_check_sensitivity_positive`, `_check_sensitivity_shape`) are methods of
`DPDataAccessDefinition` defined in `shfl/private/data.py`, which is not
among the provided sources; they are modelled from the specification text
and marked as such in their doc comments.
-/

namespace Shfl

/-- Modelled from the spec: the shared validation helper `_check_epsilon_delta`
of `DPDataAccessDefinition` (defined in `shfl/private/data.py`, which is not
among the provided sources) raises unless the pair is well formed:
"epsilon/delta well-formedness (epsilon>0; delta in [0,1))". -/
def check_epsilon_delta (ed : ℝ × ℝ) : Prop :=
  0 < ed.1 ∧ 0 ≤ ed.2 ∧ ed.2 < 1

noncomputable instance (ed : ℝ × ℝ) : Decidable (check_epsilon_delta ed) := by
  unfold check_epsilon_delta
  exact Classical.propDecidable _

/-- Python value categories distinguished by `LaplaceMechanism.apply`:
`isinstance(query_result, (np.ScalarType, np.ndarray))`, `isinstance(query_result, dict)`,
or anything else.  Numeric content is modelled with rationals. -/
inductive PyVal where
  | scalar (x : ℚ)
  | array (xs : List ℚ)
  | dict (kvs : List (String × List ℚ))
  | other
deriving DecidableEq

/-- Sensitivity values a `LaplaceMechanism` can hold: a plain Python float,
a 0-d numpy array (what `np.asarray` makes of a float), a numpy array, or a
dict of per-key (scalar) sensitivities. -/
inductive SensVal where
  | pyScalar (s : ℚ)
  | npScalar (s : ℚ)
  | npArray (ss : List ℚ)
  | dict (kvs : List (String × ℚ))
deriving DecidableEq

/-- Embedding of `np.asarray` on a sensitivity value: a Python float becomes a
0-d array; numpy arrays are returned unchanged.  (The dict case is kept
unchanged; the shape check rejects it in the branches where this conversion
runs, matching the error the source would raise.) -/
def npAsarray : SensVal → SensVal
  | .pyScalar s => .npScalar s
  | v => v

/-- Modelled from the spec: the shared validation helper
`_check_sensitivity_shape` (defined in `shfl/private/data.py`, not among the
provided sources) raises unless the sensitivity is structurally compatible
with the query result: a scalar sensitivity is compatible with any result,
"matching array shapes, or matching key sets for mappings". -/
def sensShapeOk : SensVal → PyVal → Bool
  | .pyScalar _, .scalar _ => true
  | .npScalar _, .scalar _ => true
  | .pyScalar _, .array _ => true
  | .npScalar _, .array _ => true
  | .npArray ss, .array xs => ss.length == xs.length
  | .pyScalar _, .dict _ => true
  | .npScalar _, .dict _ => true
  | .dict skvs, .dict kvs => skvs.map Prod.fst == kvs.map Prod.fst
  | _, _ => false

/-- Modelled from the spec: the shared validation helper
`_check_sensitivity_positive` (defined in `shfl/private/data.py`, not among
the provided sources) raises unless every sensitivity entry is positive. -/
def sensPositive : SensVal → Prop
  | .pyScalar s => 0 < s
  | .npScalar s => 0 < s
  | .npArray ss => ∀ s ∈ ss, 0 < s
  | .dict kvs => ∀ kv ∈ kvs, 0 < kv.2

instance (s : SensVal) : Decidable (sensPositive s) := by
  cases s <;> unfold sensPositive <;> infer_instance

/-- State of a `LaplaceMechanism` instance: the fields set by `__init__`. -/
structure LaplaceMechanism where
  sensitivity : SensVal
  epsilon : ℚ
  query : PyVal → PyVal

/-- Per-element Laplace scale `b` computed by `LaplaceMechanism.apply` for
scalar/array sensitivity: `b = self._sensitivity / self._epsilon`
(elementwise when the sensitivity is an array). -/
def lapScaleAt (s : SensVal) (ε : ℚ) (i : ℕ) : ℚ :=
  match s with
  | .pyScalar sv => sv / ε
  | .npScalar sv => sv / ε
  | .npArray ss => ss.getD i 0 / ε
  | .dict _ => 0

/-- Embedding of `LaplaceMechanism.apply`.  The oracle `lap` models
`np.random.laplace(loc=0.0, scale=b, size=shape)`: `lap b r i` is the draw at
row `r`, position `i`, with the scale argument `b` passed by the source (row 0
is the scalar/array branch, row `k+1` the `k`-th dict key).  The result is the
post-call instance state paired with the returned value: `Except.error` for a
raised validation error, `Except.ok none` for the `None` the method returns
when the query result is neither scalar/array nor dict. -/
def laplaceApply (m : LaplaceMechanism) (lap : ℚ → ℕ → ℕ → ℚ) (data : PyVal) :
    LaplaceMechanism × Except String (Option PyVal) :=
  match m.query data with
  | .scalar x =>
      let s := npAsarray m.sensitivity
      let m' := { m with sensitivity := s }
      if sensShapeOk s (.scalar x) then
        (m', .ok (some (.scalar (x + lap (lapScaleAt s m.epsilon 0) 0 0))))
      else
        (m', .error "sensitivity shape check failed")
  | .array xs =>
      let s := npAsarray m.sensitivity
      let m' := { m with sensitivity := s }
      if sensShapeOk s (.array xs) then
        (m', .ok (some (.array (List.ofFn fun i : Fin xs.length =>
          xs.get i + lap (lapScaleAt s m.epsilon i) 0 i))))
      else
        (m', .error "sensitivity shape check failed")
  | .dict kvs =>
      if sensShapeOk m.sensitivity (.dict kvs) then
        match m.sensitivity with
        | .dict skvs =>
            (m, .ok (some (.dict (kvs.map fun kv =>
              (kv.1, List.ofFn fun i : Fin kv.2.length =>
                kv.2.get i +
                  lap (((skvs.lookup kv.1).getD 0) / m.epsilon) ((kvs.map Prod.fst).indexOf kv.1 + 1) i)))))
        | .pyScalar sv =>
            (m, .ok (some (.dict (kvs.map fun kv =>
              (kv.1, List.ofFn fun i : Fin kv.2.length =>
                kv.2.get i + lap (sv / m.epsilon) ((kvs.map Prod.fst).indexOf kv.1 + 1) i)))))
        | .npScalar sv =>
            (m, .ok (some (.dict (kvs.map fun kv =>
              (kv.1, List.ofFn fun i : Fin kv.2.length =>
                kv.2.get i + lap (sv / m.epsilon) ((kvs.map Prod.fst).indexOf kv.1 + 1) i)))))
        | .npArray _ => (m, .error "sensitivity shape check failed")
      else
        (m, .error "sensitivity shape check failed")
  | .other => (m, .ok none)

/-- Modelled from the spec: the shared validation helper `_check_binary_data`
(defined in `shfl/private/data.py`, not among the provided sources) raises
unless every entry of the data is 0 or 1. -/
def binaryData (data : List ℚ) : Bool :=
  data.all fun x => x == 0 || x == 1

/-- State of a `RandomizedResponseCoins` instance: the two coin probabilities
and the `_epsilon_delta` pair fixed by `__init__`. -/
structure RandomizedResponseCoins where
  prob_head_first : ℚ
  prob_head_second : ℚ
  epsilonDelta : ℝ × ℝ

/-- Embedding of `RandomizedResponseCoins.__init__`: stores the two
probabilities and sets `_epsilon_delta = (log(3), 0)`. -/
noncomputable def coinsInit (prob_head_first prob_head_second : ℚ) : RandomizedResponseCoins :=
  { prob_head_first := prob_head_first
    prob_head_second := prob_head_second
    epsilonDelta := (Real.log 3, 0) }

/-- Embedding of the `epsilon_delta` property of `RandomizedResponseCoins`. -/
def coinsEpsilonDelta (m : RandomizedResponseCoins) : ℝ × ℝ :=
  m.epsilonDelta

/-- Embedding of `RandomizedResponseCoins.apply`.  The oracle
`bern p c i` models `scipy.stats.bernoulli.rvs(p=p, size=shape)`: the draw at
position `i` of call number `c` (call 0 draws `first_coin_flip` with
`p = 1 - prob_head_first`, call 1 draws `second_coin_flip` with
`p = prob_head_second`).  The result is
`data * first_coin_flip + (1 - first_coin_flip) * second_coin_flip`. -/
def coinsApply (m : RandomizedResponseCoins) (bern : ℚ → ℕ → ℕ → ℚ) (data : List ℚ) :
    RandomizedResponseCoins × Except String (List ℚ) :=
  if binaryData data then
    let first_coin_flip := List.ofFn fun i : Fin data.length =>
      bern (1 - m.prob_head_first) 0 i
    let second_coin_flip := List.ofFn fun i : Fin data.length =>
      bern m.prob_head_second 1 i
    (m, .ok (List.zipWith (· + ·)
      (List.zipWith (· * ·) data first_coin_flip)
      (List.zipWith (fun f s => (1 - f) * s) first_coin_flip second_coin_flip)))
  else
    (m, .error "Binary data is needed")

/-- State of a `RandomizedResponseBinary` instance: the fields `_f0`, `_f1`,
`_epsilon` set by `__init__`. -/
structure RandomizedResponseBinary where
  f0 : ℝ
  f1 : ℝ
  epsilon : ℝ

/-- Embedding of `RandomizedResponseBinary.__init__`: checks, in source
order, `_check_epsilon_delta((epsilon, 0))`, then `f0 <= 0 or f0 >= 1`, then
`f1 <= 0 or f1 >= 1`, then
`epsilon < log(max(f0 / (1 - f1), f1 / (1 - f0)))`, raising at the first
failure, and otherwise stores the three parameters. -/
noncomputable def rrBinaryInit (f0 f1 epsilon : ℝ) : Except String RandomizedResponseBinary :=
  if ¬ check_epsilon_delta (epsilon, 0) then
    .error "epsilon_delta check failed"
  else if f0 ≤ 0 ∨ 1 ≤ f0 then
    .error "f0 argument must be between 0 an 1"
  else if f1 ≤ 0 ∨ 1 ≤ f1 then
    .error "f1 argument must be between 0 an 1"
  else if epsilon < Real.log (max (f0 / (1 - f1)) (f1 / (1 - f0))) then
    .error "To ensure epsilon differential privacy, the inequality must be satisfied"
  else
    .ok { f0 := f0, f1 := f1, epsilon := epsilon }

/-- Embedding of `RandomizedResponseBinary.apply`.  The per-element success
probability array is `1 - f0` where the datum is 0 and `f1` elsewhere; the
oracle `bern p i` models the draw `scipy.stats.bernoulli.rvs(p=probabilities)`
at position `i` with success probability `p`. -/
def rrBinaryApply (m : RandomizedResponseBinary) (bern : ℝ → ℕ → ℚ) (data : List ℚ) :
    RandomizedResponseBinary × Except String (List ℚ) :=
  if binaryData data then
    let probabilities := data.map fun x => if x == 0 then 1 - m.f0 else m.f1
    (m, .ok (List.ofFn fun i : Fin probabilities.length =>
      bern (probabilities.get i) i))
  else
    (m, .error "Binary data is needed")

/-- Query-result values handled by `GaussianMechanism`: scalars and numpy
arrays (real-valued). -/
inductive GVal where
  | scalar (x : ℝ)
  | array (xs : List ℝ)

/-- Sensitivity values a `GaussianMechanism` can hold after `np.asarray`:
a (0-d) scalar or an array. -/
inductive GSens where
  | scalar (s : ℝ)
  | array (ss : List ℝ)

/-- Modelled from the spec: `_check_sensitivity_shape` restricted to the
scalar/array case used by the Gaussian mechanism — a scalar sensitivity is
compatible with any result, an array sensitivity only with an array result of
matching shape. -/
def gSensShapeOk : GSens → GVal → Bool
  | .scalar _, _ => true
  | .array ss, .array xs => ss.length == xs.length
  | .array _, .scalar _ => false

/-- Modelled from the spec: `_check_sensitivity_positive` on a scalar/array
sensitivity — every entry must be positive. -/
def gSensPositive : GSens → Prop
  | .scalar s => 0 < s
  | .array ss => ∀ s ∈ ss, 0 < s

noncomputable instance (s : GSens) : Decidable (gSensPositive s) :=
  Classical.propDecidable _

/-- State of a `GaussianMechanism` instance: the fields `_sensitivity`,
`_epsilon_delta`, `_query` set by `__init__`. -/
structure GaussianMechanism where
  sensitivity : GSens
  epsilonDelta : ℝ × ℝ
  query : GVal → GVal

/-- Embedding of `GaussianMechanism.__init__`: checks
`_check_epsilon_delta(epsilon_delta)`, then raises if `epsilon_delta[0] >= 1`,
then `_check_sensitivity_positive(sensitivity)`, and otherwise stores the
parameters. -/
noncomputable def gaussianInit (sensitivity : GSens) (epsilonDelta : ℝ × ℝ)
    (query : GVal → GVal) : Except String GaussianMechanism :=
  if ¬ check_epsilon_delta epsilonDelta then
    .error "epsilon_delta check failed"
  else if 1 ≤ epsilonDelta.1 then
    .error "In the Gaussian mechanism epsilon have to be greater than 0 and less than 1"
  else if ¬ gSensPositive sensitivity then
    .error "sensitivity must be positive"
  else
    .ok { sensitivity := sensitivity, epsilonDelta := epsilonDelta, query := query }

/-- Standard deviation computed by `GaussianMechanism.apply`:
`sqrt(2 * log(1.25 / delta)) * sensitivity / epsilon`. -/
noncomputable def gaussStd (s : ℝ) (epsilonDelta : ℝ × ℝ) : ℝ :=
  Real.sqrt (2 * Real.log (1.25 / epsilonDelta.2)) * s / epsilonDelta.1

/-- Embedding of `GaussianMechanism.apply`.  The oracle `normal std i` models
`np.random.normal(loc=0.0, scale=std, size=shape)`: the draw at position `i`
with the standard-deviation argument `std` passed by the source. -/
noncomputable def gaussianApply (m : GaussianMechanism) (normal : ℝ → ℕ → ℝ) (data : GVal) :
    GaussianMechanism × Except String GVal :=
  match m.query data with
  | .scalar x =>
      if gSensShapeOk m.sensitivity (.scalar x) then
        match m.sensitivity with
        | .scalar s => (m, .ok (.scalar (x + normal (gaussStd s m.epsilonDelta) 0)))
        | .array _ => (m, .error "sensitivity shape check failed")
      else
        (m, .error "sensitivity shape check failed")
  | .array xs =>
      if gSensShapeOk m.sensitivity (.array xs) then
        match m.sensitivity with
        | .scalar s =>
            (m, .ok (.array (List.ofFn fun i : Fin xs.length =>
              xs.get i + normal (gaussStd s m.epsilonDelta) i)))
        | .array ss =>
            (m, .ok (.array (List.ofFn fun i : Fin xs.length =>
              xs.get i + normal (gaussStd (ss.getD i 0) m.epsilonDelta) i)))
      else
        (m, .error "sensitivity shape check failed")

/-- State of an `ExponentialMechanism` instance: the utility function `_u`,
response space `_r`, utility sensitivity `_delta_u`, `_epsilon` and `_size`
set by `__init__`.  The private data and the response space are modelled as
real arrays. -/
structure ExponentialMechanism where
  u : List ℝ → List ℝ → List ℝ
  r : List ℝ
  delta_u : ℝ
  epsilon : ℝ
  size : ℕ

/-- Normalized sampling probabilities computed by `ExponentialMechanism.apply`:
`p = np.exp(epsilon * u_points / (2 * delta_u)); p /= p.sum()`. -/
noncomputable def expMechProbs (m : ExponentialMechanism) (data : List ℝ) : List ℝ :=
  let u_points := m.u data m.r
  let p := u_points.map fun up => Real.exp (m.epsilon * up / (2 * m.delta_u))
  p.map fun w => w / p.sum

/-- Embedding of `ExponentialMechanism.apply`.  The oracle `pick i p` models
draw number `i` of `np.random.choice(a=r_range, size=size, replace=True, p=p)`:
it receives the full normalized probability vector and returns the index of
the chosen candidate; the `size` draws are taken independently from the same
distribution (sampling with replacement). -/
noncomputable def expMechApply (m : ExponentialMechanism) (pick : ℕ → List ℝ → ℕ)
    (data : List ℝ) : ExponentialMechanism × List ℝ :=
  let p := expMechProbs m data
  (m, List.ofFn fun i : Fin m.size => m.r.getD (pick i p) 0)

/-- Helper: a guarded constructor of the form
`if c then error else rest` produces a value exactly when the guard is off and
the rest produces one. -/
theorem exists_ok_ite {α : Type} {c : Prop} [Decidable c] (e : String)
    (x : Except String α) :
    (∃ m, (if c then Except.error e else x) = .ok m) ↔ (¬c ∧ ∃ m, x = .ok m) := by
  split_ifs with h <;> simp [h]

/-- C9: for every `RandomizedResponseCoins` instance, regardless of the
`prob_head_first` and `prob_head_second` values supplied at construction, the
`epsilon_delta` property returns exactly `(ln 3, 0)`. -/
theorem coins_epsilon_delta_always_log_three (p1 p2 : ℚ) :
    coinsEpsilonDelta (coinsInit p1 p2) = (Real.log 3, 0) :=
  rfl

/-- C10: for every `LaplaceMechanism`, if the query result is neither a numpy
scalar type nor a numpy ndarray nor a dict, `apply(data)` returns `None`
without raising any error, without adding noise, and without touching the
instance state. -/
theorem laplace_apply_none_on_unhandled_type (m : LaplaceMechanism)
    (lap : ℚ → ℕ → ℕ → ℚ) (data : PyVal) (h : m.query data = .other) :
    laplaceApply m lap data = (m, .ok none) := by
  unfold laplaceApply
  rw [h]

theorem laplace_apply_none_on_unhandled_type_witness :
    laplaceApply ⟨.pyScalar 1, 1, fun _ => .other⟩ (fun _ _ _ => 0) (.scalar 0)
      = (⟨.pyScalar 1, 1, fun _ => .other⟩, .ok none) :=
  laplace_apply_none_on_unhandled_type _ _ _ rfl

/-- Concrete Laplace instance used to exhibit the state mutation performed by
`LaplaceMechanism.apply`: sensitivity held as a plain Python float. -/
def lapEx : LaplaceMechanism :=
  { sensitivity := .pyScalar 1, epsilon := 1, query := fun v => v }

/-- C3 counterexample: a successful `LaplaceMechanism.apply` call on a scalar
query result reassigns the instance field `_sensitivity` to
`np.asarray(self._sensitivity)`, so the instance-held configuration does not
stay unchanged: the stored sensitivity changes from a Python float to a 0-d
numpy array. -/
theorem laplace_apply_changes_sensitivity_field :
    (laplaceApply lapEx (fun _ _ _ => 0) (.scalar 0)).1.sensitivity
      ≠ lapEx.sensitivity := by
  decide

/-- C3 (amended): `apply` never mutates the instance state of
`RandomizedResponseCoins`, `RandomizedResponseBinary`, `GaussianMechanism`
or `ExponentialMechanism`; `LaplaceMechanism.apply` leaves the state
unchanged on the dict branch, on the `None`-returning branch and on every
raised validation error, but on a scalar or array query result it reassigns
`_sensitivity` to `np.asarray(_sensitivity)` (same numeric content, converted
to a numpy array) before any noise is drawn. -/
theorem apply_frame_conditions :
    (∀ (m : RandomizedResponseCoins) (bern : ℚ → ℕ → ℕ → ℚ) (data : List ℚ),
      (coinsApply m bern data).1 = m) ∧
    (∀ (m : RandomizedResponseBinary) (bern : ℝ → ℕ → ℚ) (data : List ℚ),
      (rrBinaryApply m bern data).1 = m) ∧
    (∀ (m : GaussianMechanism) (normal : ℝ → ℕ → ℝ) (data : GVal),
      (gaussianApply m normal data).1 = m) ∧
    (∀ (m : ExponentialMechanism) (pick : ℕ → List ℝ → ℕ) (data : List ℝ),
      (expMechApply m pick data).1 = m) ∧
    (∀ (m : LaplaceMechanism) (lap : ℚ → ℕ → ℕ → ℚ) (data : PyVal),
      (laplaceApply m lap data).1 =
        match m.query data with
        | .scalar _ => { m with sensitivity := npAsarray m.sensitivity }
        | .array _ => { m with sensitivity := npAsarray m.sensitivity }
        | .dict _ => m
        | .other => m) := by
  refine ⟨?_, ?_, ?_, ?_, ?_⟩
  · intro m bern data
    unfold coinsApply
    split <;> rfl
  · intro m bern data
    unfold rrBinaryApply
    split <;> rfl
  · intro m normal data
    unfold gaussianApply
    split <;> split <;> try split
    all_goals rfl
  · intro m pick data
    rfl
  · intro m lap data
    unfold laplaceApply
    split <;> (try dsimp only) <;> (try split) <;> (try split) <;> rfl

/-- C1 (amended): construction of `RandomizedResponseBinary` succeeds exactly
when the epsilon-delta well-formedness check passes (`epsilon > 0`), `f0` and
`f1` lie strictly inside `(0, 1)`, and
`epsilon >= ln(max(f0/(1-f1), f1/(1-f0)))`.  In particular, for
`f0 = f1 = 0.5` the minimum epsilon from the log bound is 0, but
`epsilon = 0` itself is rejected by the well-formedness check, so only
`epsilon > 0` succeeds. -/
theorem rrBinaryInit_ok_iff (f0 f1 epsilon : ℝ) :
    (∃ m, rrBinaryInit f0 f1 epsilon = .ok m) ↔
      (0 < epsilon ∧ (0 < f0 ∧ f0 < 1) ∧ (0 < f1 ∧ f1 < 1) ∧
        Real.log (max (f0 / (1 - f1)) (f1 / (1 - f0))) ≤ epsilon) := by
  unfold rrBinaryInit
  rw [exists_ok_ite, exists_ok_ite, exists_ok_ite, exists_ok_ite]
  simp only [check_epsilon_delta, not_not, not_or, not_lt, not_le]
  constructor
  · rintro ⟨⟨hε, -, -⟩, h2, h3, h4, -⟩
    exact ⟨hε, h2, h3, h4⟩
  · rintro ⟨hε, h2, h3, h4⟩
    exact ⟨⟨hε, le_refl 0, zero_lt_one⟩, h2, h3, h4, _, rfl⟩

/-- C1 counterexample: at `f0 = f1 = 0.5`, `epsilon = 0` satisfies the
claimed success condition (`f0`, `f1` strictly inside `(0,1)` and
`epsilon >= ln(max(f0/(1-f1), f1/(1-f0))) = ln 1 = 0`), yet construction
fails, because `_check_epsilon_delta((epsilon, 0))` requires `epsilon > 0`. -/
theorem rrBinaryInit_eps_zero_rejected :
    (0 : ℝ) < 1 / 2 ∧ (1 / 2 : ℝ) < 1 ∧
    Real.log (max ((1 / 2 : ℝ) / (1 - 1 / 2)) ((1 / 2 : ℝ) / (1 - 1 / 2))) ≤ 0 ∧
    ¬∃ m, rrBinaryInit (1 / 2) (1 / 2) 0 = .ok m := by
  refine ⟨by norm_num, by norm_num, ?_, ?_⟩
  · have h : ((1 / 2 : ℝ) / (1 - 1 / 2)) = 1 := by norm_num
    rw [h, max_self, Real.log_one]
  · unfold rrBinaryInit
    rw [exists_ok_ite]
    rintro ⟨h1, -⟩
    exact h1 (by norm_num [check_epsilon_delta])

/-- C2 (amended): `GaussianMechanism` construction succeeds exactly when
`0 < epsilon < 1`, `delta` lies in `[0, 1)` and the sensitivity is positive;
`epsilon = 1.0` is rejected, but `delta = 0` is accepted at construction
(there is no `delta > 0` check). -/
theorem gaussianInit_ok_iff (s : GSens) (ed : ℝ × ℝ) (q : GVal → GVal) :
    (∃ m, gaussianInit s ed q = .ok m) ↔
      (0 < ed.1 ∧ ed.1 < 1 ∧ 0 ≤ ed.2 ∧ ed.2 < 1 ∧ gSensPositive s) := by
  unfold gaussianInit
  rw [exists_ok_ite, exists_ok_ite, exists_ok_ite]
  simp only [check_epsilon_delta, not_not, not_le]
  constructor
  · rintro ⟨⟨hε, hd0, hd1⟩, hε1, hs, -⟩
    exact ⟨hε, hε1, hd0, hd1, hs⟩
  · rintro ⟨hε, hε1, hd0, hd1, hs⟩
    exact ⟨⟨hε, hd0, hd1⟩, hε1, hs, _, rfl⟩

/-- C2 counterexample: constructing a `GaussianMechanism` with
`epsilon_delta = (0.5, 0)` — i.e. `delta = 0` — succeeds, contradicting the
claim that construction with `delta = 0` fails. -/
theorem gaussianInit_delta_zero_accepted :
    ∃ m, gaussianInit (.scalar 1) ((1 / 2 : ℝ), 0) (fun v => v) = .ok m := by
  unfold gaussianInit
  rw [exists_ok_ite, exists_ok_ite, exists_ok_ite]
  refine ⟨?_, ?_, ?_, _, rfl⟩
  · norm_num [check_epsilon_delta]
  · norm_num
  · norm_num [gSensPositive]

/-- Helper: element of a `List.ofFn` at an in-range position. -/
theorem getD_ofFn {α : Type} {n : ℕ} (f : Fin n → α) (d : α) (i : ℕ) (h : i < n) :
    (List.ofFn f).getD i d = f ⟨i, h⟩ := by
  rw [List.getD_eq_getElem?_getD, List.getElem?_ofFn]
  unfold List.ofFnNthVal
  rw [dif_pos h]
  rfl

/-- Helper: element of a `List.zipWith` at a position in range of both lists. -/
theorem getD_zipWith {α : Type} (f : α → α → α) (d : α) (as bs : List α) (i : ℕ)
    (h1 : i < as.length) (h2 : i < bs.length) :
    (List.zipWith f as bs).getD i d = f (as.getD i d) (bs.getD i d) := by
  rw [List.getD_eq_getElem?_getD, List.getElem?_zipWith,
    List.getElem?_eq_getElem h1, List.getElem?_eq_getElem h2,
    List.getD_eq_getElem?_getD, List.getD_eq_getElem?_getD,
    List.getElem?_eq_getElem h1, List.getElem?_eq_getElem h2]
  rfl

/-- C7: for every `RandomizedResponseCoins` instance and every binary input,
`apply(data)` equals elementwise `data*first + (1-first)*second`, where the
`first` draw is requested with success probability `1 - prob_head_first` and
the `second` draw with success probability `prob_head_second`, and the output
has the same shape (length) as the input. -/
theorem coins_apply_closed_form (m : RandomizedResponseCoins) (bern : ℚ → ℕ → ℕ → ℚ)
    (data : List ℚ) (h : binaryData data = true) :
    ∃ out, (coinsApply m bern data).2 = .ok out ∧ out.length = data.length ∧
      ∀ i < data.length,
        out.getD i 0 = data.getD i 0 * bern (1 - m.prob_head_first) 0 i
          + (1 - bern (1 - m.prob_head_first) 0 i) * bern m.prob_head_second 1 i := by
  unfold coinsApply
  rw [if_pos h]
  dsimp only
  refine ⟨_, rfl, ?_, ?_⟩
  · simp
  · intro i hi
    rw [getD_zipWith _ _ _ _ i (by simpa using hi) (by simpa using hi),
      getD_zipWith _ _ _ _ i (by simpa using hi) (by simpa using hi),
      getD_zipWith _ _ _ _ i (by simpa using hi) (by simpa using hi),
      getD_ofFn _ _ i (by simpa using hi), getD_ofFn _ _ i (by simpa using hi)]

theorem coins_apply_closed_form_witness :
    ∃ out, (coinsApply (coinsInit (1/2) (1/2)) (fun _ _ _ => 1) [0, 1]).2 = .ok out ∧
      out.length = ([0, 1] : List ℚ).length ∧
      ∀ i < ([0, 1] : List ℚ).length,
        out.getD i 0 = ([0, 1] : List ℚ).getD i 0 * 1 + (1 - 1) * 1 :=
  coins_apply_closed_form (coinsInit (1/2) (1/2)) (fun _ _ _ => 1) [0, 1] (by decide)

/-- C8: for every `RandomizedResponseBinary` instance with parameters `f0`,
`f1` and every binary input, each output element is a Bernoulli draw requested
with success probability `f1` when the corresponding input element is 1 and
`1 - f0` when the input element is 0, and the output has the same length. -/
theorem rrBinary_apply_probabilities (m : RandomizedResponseBinary) (bern : ℝ → ℕ → ℚ)
    (data : List ℚ) (h : binaryData data = true) :
    ∃ out, (rrBinaryApply m bern data).2 = .ok out ∧ out.length = data.length ∧
      ∀ i < data.length,
        out.getD i 0 = bern (if data.getD i 0 = 1 then m.f1 else 1 - m.f0) i := by
  unfold rrBinaryApply
  rw [if_pos h]
  dsimp only
  refine ⟨_, rfl, ?_, ?_⟩
  · simp
  · intro i hi
    have hi' : i < (data.map fun x => if x == 0 then 1 - m.f0 else m.f1).length := by
      simpa using hi
    rw [getD_ofFn _ _ i hi']
    have hmem : data.getD i 0 ∈ data := by
      rw [List.getD_eq_getElem _ _ hi]
      exact List.getElem_mem hi
    have hbin : data.getD i 0 = 0 ∨ data.getD i 0 = 1 := by
      simp only [binaryData, List.all_eq_true] at h
      simpa using h _ hmem
    have hget : (data.map fun x => if x == 0 then 1 - m.f0 else m.f1).get ⟨i, hi'⟩
        = if data.getD i 0 == 0 then 1 - m.f0 else m.f1 := by
      rw [List.get_eq_getElem, List.getElem_map, List.getD_eq_getElem _ _ hi]
    rw [hget]
    rcases hbin with h0 | h1
    · rw [h0]
      norm_num
    · rw [h1]
      norm_num

theorem rrBinary_apply_probabilities_witness :
    ∃ out, (rrBinaryApply ⟨9/10, 9/10, Real.log 9⟩ (fun _ _ => 1) [0, 1]).2 = .ok out ∧
      out.length = ([0, 1] : List ℚ).length ∧
      ∀ i < ([0, 1] : List ℚ).length,
        out.getD i 0 = 1 :=
  rrBinary_apply_probabilities ⟨9/10, 9/10, Real.log 9⟩ (fun _ _ => 1) [0, 1] (by decide)

/-- C4: for every `LaplaceMechanism` with positive sensitivity and epsilon,
`apply(data)` returns the query result plus Laplace(location 0) noise of the
same shape, where the requested scale is `sensitivity/epsilon` for a scalar or
array result with scalar sensitivity (the same scale for every element of an
array result), elementwise `sensitivity[i]/epsilon` when result and sensitivity
are both arrays, `sensitivity/epsilon` for every key when the result is a mapping
and the sensitivity a scalar, and `sensitivity[k]/epsilon` for each key `k`
when both are mappings, each key's scale depending only on that key's
sensitivity entry. -/
theorem laplace_apply_noise_scales :
    (∀ (m : LaplaceMechanism) (lap : ℚ → ℕ → ℕ → ℚ) (data : PyVal) (x sv : ℚ),
      sensPositive m.sensitivity → 0 < m.epsilon →
      m.query data = .scalar x → m.sensitivity = .pyScalar sv →
      (laplaceApply m lap data).2 =
        .ok (some (.scalar (x + lap (sv / m.epsilon) 0 0)))) ∧
    (∀ (m : LaplaceMechanism) (lap : ℚ → ℕ → ℕ → ℚ) (data : PyVal) (xs : List ℚ) (sv : ℚ),
      sensPositive m.sensitivity → 0 < m.epsilon →
      m.query data = .array xs → m.sensitivity = .pyScalar sv →
      (laplaceApply m lap data).2 =
        .ok (some (.array (List.ofFn fun i : Fin xs.length =>
          xs.get i + lap (sv / m.epsilon) 0 i)))) ∧
    (∀ (m : LaplaceMechanism) (lap : ℚ → ℕ → ℕ → ℚ) (data : PyVal) (xs ss : List ℚ),
      sensPositive m.sensitivity → 0 < m.epsilon →
      m.query data = .array xs → m.sensitivity = .npArray ss → ss.length = xs.length →
      (laplaceApply m lap data).2 =
        .ok (some (.array (List.ofFn fun i : Fin xs.length =>
          xs.get i + lap (ss.getD i 0 / m.epsilon) 0 i)))) ∧
    (∀ (m : LaplaceMechanism) (lap : ℚ → ℕ → ℕ → ℚ) (data : PyVal)
      (kvs : List (String × List ℚ)) (sv : ℚ),
      sensPositive m.sensitivity → 0 < m.epsilon →
      m.query data = .dict kvs → m.sensitivity = .pyScalar sv →
      (laplaceApply m lap data).2 =
        .ok (some (.dict (kvs.map fun kv =>
          (kv.1, List.ofFn fun i : Fin kv.2.length =>
            kv.2.get i + lap (sv / m.epsilon) ((kvs.map Prod.fst).indexOf kv.1 + 1) i))))) ∧
    (∀ (m : LaplaceMechanism) (lap : ℚ → ℕ → ℕ → ℚ) (data : PyVal)
      (kvs : List (String × List ℚ)) (skvs : List (String × ℚ)),
      sensPositive m.sensitivity → 0 < m.epsilon →
      m.query data = .dict kvs → m.sensitivity = .dict skvs →
      skvs.map Prod.fst = kvs.map Prod.fst →
      (laplaceApply m lap data).2 =
        .ok (some (.dict (kvs.map fun kv =>
          (kv.1, List.ofFn fun i : Fin kv.2.length =>
            kv.2.get i +
              lap ((skvs.lookup kv.1).getD 0 / m.epsilon)
                ((kvs.map Prod.fst).indexOf kv.1 + 1) i))))) := by
  refine ⟨?_, ?_, ?_, ?_, ?_⟩
  · intro m lap data x sv hpos hε hq hs
    unfold laplaceApply
    rw [hq, hs]
    simp [npAsarray, sensShapeOk, lapScaleAt]
  · intro m lap data xs sv hpos hε hq hs
    unfold laplaceApply
    rw [hq, hs]
    simp [npAsarray, sensShapeOk, lapScaleAt]
  · intro m lap data xs ss hpos hε hq hs hlen
    unfold laplaceApply
    rw [hq, hs]
    simp [npAsarray, sensShapeOk, lapScaleAt, hlen]
  · intro m lap data kvs sv hpos hε hq hs
    unfold laplaceApply
    rw [hq, hs]
    simp [sensShapeOk]
  · intro m lap data kvs skvs hpos hε hq hs hkeys
    unfold laplaceApply
    rw [hq, hs]
    simp [sensShapeOk, hkeys]

instance {σ α : Type} [DecidableEq σ] [DecidableEq α] : DecidableEq (Except σ α)
  | .ok a, .ok b => if h : a = b then .isTrue (by rw [h]) else .isFalse (by simp [h])
  | .error a, .error b => if h : a = b then .isTrue (by rw [h]) else .isFalse (by simp [h])
  | .ok _, .error _ => .isFalse (by simp)
  | .error _, .ok _ => .isFalse (by simp)

theorem laplace_apply_noise_scales_witness :
    ((laplaceApply ⟨.pyScalar 1, 2, fun _ => .scalar 3⟩ (fun b _ _ => b) .other).2 =
      .ok (some (.scalar (3 + 1 / 2)))) ∧
    ((laplaceApply ⟨.pyScalar 2, 4, fun _ => .array [5]⟩ (fun b _ _ => b) .other).2 =
      .ok (some (.array [5 + 2 / 4]))) ∧
    ((laplaceApply ⟨.npArray [2], 4, fun _ => .array [5]⟩ (fun b _ _ => b) .other).2 =
      .ok (some (.array [5 + 2 / 4]))) ∧
    ((laplaceApply ⟨.pyScalar 3, 2, fun _ => .dict [("k", [7])]⟩ (fun b _ _ => b) .other).2 =
      .ok (some (.dict [("k", [7 + 3 / 2])]))) ∧
    ((laplaceApply ⟨.dict [("k", 5)], 2, fun _ => .dict [("k", [7])]⟩ (fun b _ _ => b) .other).2 =
      .ok (some (.dict [("k", [7 + 5 / 2])]))) := by
  refine ⟨?_, ?_, ?_, ?_, ?_⟩
  · rw [laplace_apply_noise_scales.1 _ _ .other 3 1 (by decide) (by decide) rfl rfl]
  · rw [laplace_apply_noise_scales.2.1 _ _ .other [5] 2 (by decide) (by decide) rfl rfl]
    simp [List.ofFn_succ]
  · rw [laplace_apply_noise_scales.2.2.1 _ _ .other [5] [2] (by decide) (by decide) rfl rfl rfl]
    simp [List.ofFn_succ]
  · rw [laplace_apply_noise_scales.2.2.2.1 _ _ .other [("k", [7])] 3
      (by decide) (by decide) rfl rfl]
    simp [List.ofFn_succ]
  · rw [laplace_apply_noise_scales.2.2.2.2 _ _ .other [("k", [7])] [("k", 5)]
      (by decide) (by decide) rfl rfl rfl]
    simp [List.ofFn_succ, List.lookup]

/-- C5: for every `GaussianMechanism` with sensitivity `s` and
`epsilon_delta = (e, d)`, `apply(data)` returns the query result plus
Normal(0, std) noise per element with
`std = sqrt(2*ln(1.25/d)) * s / e` (elementwise in `s` when the sensitivity
is an array), and the returned value has the same shape as the query
result. -/
theorem gaussian_apply_noise_std :
    (∀ (m : GaussianMechanism) (normal : ℝ → ℕ → ℝ) (data : GVal) (x s : ℝ),
      m.query data = .scalar x → m.sensitivity = .scalar s →
      (gaussianApply m normal data).2 = .ok (.scalar (x +
        normal (Real.sqrt (2 * Real.log (1.25 / m.epsilonDelta.2)) * s / m.epsilonDelta.1)
          0))) ∧
    (∀ (m : GaussianMechanism) (normal : ℝ → ℕ → ℝ) (data : GVal) (xs : List ℝ) (s : ℝ),
      m.query data = .array xs → m.sensitivity = .scalar s →
      (gaussianApply m normal data).2 = .ok (.array (List.ofFn fun i : Fin xs.length =>
        xs.get i +
          normal (Real.sqrt (2 * Real.log (1.25 / m.epsilonDelta.2)) * s / m.epsilonDelta.1)
            i))) ∧
    (∀ (m : GaussianMechanism) (normal : ℝ → ℕ → ℝ) (data : GVal) (xs ss : List ℝ),
      m.query data = .array xs → m.sensitivity = .array ss → ss.length = xs.length →
      (gaussianApply m normal data).2 = .ok (.array (List.ofFn fun i : Fin xs.length =>
        xs.get i +
          normal (Real.sqrt (2 * Real.log (1.25 / m.epsilonDelta.2)) * ss.getD i 0 /
            m.epsilonDelta.1) i))) := by
  refine ⟨?_, ?_, ?_⟩
  · intro m normal data x s hq hs
    unfold gaussianApply
    rw [hq, hs]
    simp [gSensShapeOk, gaussStd]
  · intro m normal data xs s hq hs
    unfold gaussianApply
    rw [hq, hs]
    simp [gSensShapeOk, gaussStd]
  · intro m normal data xs ss hq hs hlen
    unfold gaussianApply
    rw [hq, hs]
    simp [gSensShapeOk, gaussStd, hlen]

theorem gaussian_apply_noise_std_witness :
    (gaussianApply ⟨.scalar 1, (1 / 2, 1 / 100), fun _ => .array [0]⟩
      (fun _ _ => 0) (.scalar 0)).2 = .ok (.array [(0 : ℝ)]) := by
  rw [gaussian_apply_noise_std.2.1 _ _ (.scalar 0) [0] 1 rfl rfl]
  simp [List.ofFn_succ]

/-- C6: for every `ExponentialMechanism`, `apply(data)` draws exactly `size`
samples from the response space with replacement, every draw taken from the
same normalized distribution in which candidate `i` has probability
`exp(epsilon*u_i/(2*delta_u))` divided by the sum of those weights over all
candidates; when the utility is constant over the response space the
distribution is uniform (`1/|r|` per candidate) regardless of epsilon. -/
theorem expMech_sampling_distribution (m : ExponentialMechanism) (pick : ℕ → List ℝ → ℕ)
    (data : List ℝ) (c : ℝ) :
    (expMechProbs m data = (m.u data m.r).map fun up =>
        Real.exp (m.epsilon * up / (2 * m.delta_u)) /
          ((m.u data m.r).map fun uq => Real.exp (m.epsilon * uq / (2 * m.delta_u))).sum) ∧
    ((expMechApply m pick data).2 = List.ofFn fun i : Fin m.size =>
        m.r.getD (pick i (expMechProbs m data)) 0) ∧
    ((expMechApply m pick data).2.length = m.size) ∧
    ((∀ up ∈ m.u data m.r, up = c) → (m.u data m.r).length = m.r.length →
      expMechProbs m data = List.replicate m.r.length (1 / (m.r.length : ℝ))) := by
  refine ⟨?_, rfl, ?_, ?_⟩
  · simp only [expMechProbs]
    rw [List.map_map]
    rfl
  · simp [expMechApply]
  · intro hconst hlen
    have hu : m.u data m.r = List.replicate (m.u data m.r).length c :=
      List.eq_replicate_length.mpr hconst
    simp only [expMechProbs]
    rw [hu, List.map_replicate, List.map_replicate, List.sum_replicate, hlen]
    congr 1
    rw [nsmul_eq_mul, mul_comm ((m.r.length : ℝ)) (Real.exp _), ← div_div,
      div_self (Real.exp_ne_zero _)]

theorem expMech_sampling_distribution_witness :
    expMechProbs ⟨fun _ r => r.map fun _ => 0, [1, 2], 1, 1, 1⟩ [0]
      = List.replicate 2 (1 / (2 : ℝ)) := by
  have h := (expMech_sampling_distribution ⟨fun _ r => r.map fun _ => 0, [1, 2], 1, 1, 1⟩
    (fun _ _ => 0) [0] 0).2.2.2 (fun up hup => by simpa using hup) rfl
  simpa using h

end Shfl
